import Mathlib

/-!
Verification development for the scenario-orchestration harness
`ThinkCLI/.codex/run_usecases.py`.

The Python source is shallowly embedded: pure helpers become Lean
functions, the subprocess boundary is modelled by an explicit
`ProcBehavior` describing what the external process would do, and the
filesystem side effects of one step are recorded as an explicit event
trace.  Exceptions are modelled with `Except`.
-/

set_option linter.unusedVariables false

namespace RunUsecases

/-! ## Python values

Model of the dynamic values (`json.loads` results, `dict.get` lookups,
truthiness) that the script manipulates. -/

/-- A Python value as produced by `json.loads` (floats are not needed by
any claim and are outside this model). -/
inductive PyVal where
  | none
  | bool (b : Bool)
  | int (n : Int)
  | str (s : String)
  | list (xs : List PyVal)
  | dict (kvs : List (String × PyVal))
deriving Inhabited

/-- Python truthiness (`bool(v)`) on modelled values. -/
def pyTruthy : PyVal → Bool
  | .none => false
  | .bool b => b
  | .int n => decide (n ≠ 0)
  | .str s => !s.isEmpty
  | .list xs => !xs.isEmpty
  | .dict kvs => !kvs.isEmpty

/-- Python `d.get(k)` (returns `None` when the key is absent).  Only
meaningful on `dict` values; callers in the source always guard with
`isinstance(obj, dict)` first. -/
def pyGet : PyVal → String → PyVal
  | .dict kvs, k =>
    match kvs.find? (fun kv => kv.1 == k) with
    | some kv => kv.2
    | Option.none => .none
  | _, _ => .none

/-- Is the value a Python `dict` (`isinstance(obj, dict)`)? -/
def isDict : PyVal → Bool
  | .dict _ => true
  | _ => false

/-- Is the value a Python `list` (`isinstance(obj, list)`)? -/
def isList : PyVal → Bool
  | .list _ => true
  | _ => false

/-! ## A model of `json.loads`

A recursive-descent parser over `List Char` with explicit fuel.  It
covers the JSON fragment the harness actually exchanges: `null`,
booleans, integers, strings (with the simple escapes), arrays and
objects.  Floats and `\uXXXX` escapes are not modelled; no claim
depends on them. -/

def jsonWs (c : Char) : Bool :=
  c = ' ' || c = '\t' || c = '\n' || c = '\r'

def skipWs : List Char → List Char
  | [] => []
  | c :: cs => if jsonWs c then skipWs cs else c :: cs

/-- Parse the body of a JSON string after the opening quote; returns the
decoded characters and the remainder after the closing quote. -/
def parseStrBody : List Char → Option (List Char × List Char)
  | [] => Option.none
  | c :: cs =>
    if c = '"' then some ([], cs)
    else if c = '\\' then
      match cs with
      | [] => Option.none
      | e :: cs2 =>
        let esc : Option Char :=
          if e = '"' then some '"'
          else if e = '\\' then some '\\'
          else if e = '/' then some '/'
          else if e = 'n' then some '\n'
          else if e = 't' then some '\t'
          else if e = 'r' then some '\r'
          else if e = 'b' then some (Char.ofNat 8)
          else if e = 'f' then some (Char.ofNat 12)
          else Option.none
        match esc with
        | some ch => (parseStrBody cs2).map (fun p => (ch :: p.1, p.2))
        | Option.none => Option.none
    else (parseStrBody cs).map (fun p => (c :: p.1, p.2))

def isDigitCh (c : Char) : Bool := '0' ≤ c ∧ c ≤ '9'

def takeDigits : List Char → (List Char × List Char)
  | [] => ([], [])
  | c :: cs =>
    if isDigitCh c then
      let p := takeDigits cs
      (c :: p.1, p.2)
    else ([], c :: cs)

def digitsToNat (cs : List Char) : Nat :=
  cs.foldl (fun a c => 10 * a + (c.toNat - 48)) 0

/-- Parse a JSON unsigned integer (leading zeros are rejected, as in
JSON; a following `.`, `e` or `E` would be a float, which this model
does not cover and rejects). -/
def parseNatJ (cs : List Char) : Option (Nat × List Char) :=
  match takeDigits cs with
  | ([], _) => Option.none
  | (d :: ds, rest) =>
    if d = '0' ∧ ds ≠ [] then Option.none
    else match rest with
      | r :: _ => if r = '.' || r = 'e' || r = 'E' then Option.none
                  else some (digitsToNat (d :: ds), rest)
      | [] => some (digitsToNat (d :: ds), rest)

def parseNumJ (cs : List Char) : Option (PyVal × List Char) :=
  match cs with
  | '-' :: rest => (parseNatJ rest).map (fun p => (.int (-(p.1 : Int)), p.2))
  | _ => (parseNatJ cs).map (fun p => (.int (p.1 : Int), p.2))

/-- Insert a key into an object under construction, overwriting an
existing binding as a Python `dict` does. -/
def dictSet : List (String × PyVal) → String → PyVal → List (String × PyVal)
  | [], k, v => [(k, v)]
  | (k0, v0) :: rest, k, v =>
    if k0 == k then (k0, v) :: rest else (k0, v0) :: dictSet rest k v

def braceO : Char := Char.ofNat 123
def braceC : Char := Char.ofNat 125

mutual

def parseJ : Nat → List Char → Option (PyVal × List Char)
  | 0, _ => Option.none
  | fuel + 1, cs =>
    match skipWs cs with
    | 'n' :: 'u' :: 'l' :: 'l' :: rest => some (.none, rest)
    | 't' :: 'r' :: 'u' :: 'e' :: rest => some (.bool true, rest)
    | 'f' :: 'a' :: 'l' :: 's' :: 'e' :: rest => some (.bool false, rest)
    | '"' :: rest => (parseStrBody rest).map (fun p => (.str (String.mk p.1), p.2))
    | '[' :: rest => parseArr fuel rest
    | c :: rest =>
      if c = braceO then parseObj fuel rest
      else parseNumJ (c :: rest)
    | [] => Option.none

def parseArr : Nat → List Char → Option (PyVal × List Char)
  | 0, _ => Option.none
  | fuel + 1, cs =>
    match skipWs cs with
    | ']' :: rest => some (.list [], rest)
    | cs2 =>
      match parseJ fuel cs2 with
      | some (v, r) => parseArrRest fuel r [v]
      | Option.none => Option.none

def parseArrRest : Nat → List Char → List PyVal → Option (PyVal × List Char)
  | 0, _, _ => Option.none
  | fuel + 1, cs, acc =>
    match skipWs cs with
    | ',' :: rest =>
      match parseJ fuel rest with
      | some (v, r) => parseArrRest fuel r (acc ++ [v])
      | Option.none => Option.none
    | ']' :: rest => some (.list acc, rest)
    | _ => Option.none

def parseObj : Nat → List Char → Option (PyVal × List Char)
  | 0, _ => Option.none
  | fuel + 1, cs =>
    match skipWs cs with
    | [] => Option.none
    | c :: rest =>
      if c = braceC then some (.dict [], rest)
      else if c = '"' then
        match parseStrBody rest with
        | some (k, r1) => parseObjVal fuel r1 [] (String.mk k)
        | Option.none => Option.none
      else Option.none

def parseObjVal (fuel : Nat) (cs : List Char) (acc : List (String × PyVal))
    (k : String) : Option (PyVal × List Char) :=
  match fuel with
  | 0 => Option.none
  | fuel + 1 =>
    match skipWs cs with
    | ':' :: rest =>
      match parseJ fuel rest with
      | some (v, r) => parseObjRest fuel r (dictSet acc k v)
      | Option.none => Option.none
    | _ => Option.none

def parseObjRest (fuel : Nat) (cs : List Char) (acc : List (String × PyVal)) :
    Option (PyVal × List Char) :=
  match fuel with
  | 0 => Option.none
  | fuel + 1 =>
    match skipWs cs with
    | ',' :: rest =>
      (match skipWs rest with
       | '"' :: r1 =>
         match parseStrBody r1 with
         | some (k, r2) => parseObjVal fuel r2 acc (String.mk k)
         | Option.none => Option.none
       | _ => Option.none)
    | c :: rest =>
      if c = braceC then some (.dict acc, rest) else Option.none
    | [] => Option.none

end

/-- Model of `json.loads`: the whole input must be one JSON value with
only whitespace around it. -/
def jsonLoads (s : String) : Option PyVal :=
  match parseJ (s.length + 1) s.data with
  | some (v, rest) => if skipWs rest = [] then some v else Option.none
  | Option.none => Option.none

example : jsonLoads "[]" = some (.list []) := by rfl
example : jsonLoads "not json" = Option.none := by rfl
example : jsonLoads " \x7b\"id\": \"abc\"\x7d " = some (.dict [("id", .str "abc")]) := by rfl
example : jsonLoads "[1, -2, null]" = some (.list [.int 1, .int (-2), .none]) := by rfl

/-! ## Decimal rendering of a natural number

Model of the Python f-string `f"{int(time.time())}"` used to build the
per-step log-file name. -/

def natCharsAux : Nat → Nat → List Char → List Char
  | 0, _, acc => acc
  | fuel + 1, n, acc =>
    if n = 0 then acc
    else natCharsAux fuel (n / 10) (Char.ofNat (48 + n % 10) :: acc)

/-- Decimal digit string of a natural number (`str(n)` for `n ≥ 0`).
The fuel `n + 1` always suffices since a number has at most `n + 1`
decimal digits. -/
def natChars (n : Nat) : List Char :=
  if n = 0 then ['0'] else natCharsAux (n + 1) n []

def natString (n : Nat) : String := String.mk (natChars n)

example : natString 1736951112 = "1736951112" := by rfl

/-! ## `shlex.quote` -/

/-- The apostrophe character (used instead of a literal). -/
def sq : Char := Char.ofNat 39

/-- Characters `shlex.quote` considers safe: ASCII alphanumerics,
underscore, and the punctuation @ % + = : , . slash hyphen (the
complement of shlex's `_find_unsafe` ASCII regex). -/
def shlexSafe (c : Char) : Bool :=
  ('a' ≤ c ∧ c ≤ 'z') || ('A' ≤ c ∧ c ≤ 'Z') || ('0' ≤ c ∧ c ≤ '9') ||
  c = '_' || c = '@' || c = '%' || c = '+' || c = '=' || c = ':' ||
  c = ',' || c = '.' || c = '/' || c = '-'

/-- Model of `shlex.quote`. -/
def shlexQuote (s : String) : String :=
  if s.isEmpty then String.mk [sq, sq]
  else if s.data.all shlexSafe then s
  else
    String.mk
      ([sq] ++
        s.data.flatMap (fun c => if c = sq then [sq, '"', sq, '"', sq] else [c]) ++
        [sq])

example : shlexQuote "chat" = "chat" := by rfl
example : shlexQuote "a b" = String.mk [sq, 'a', ' ', 'b', sq] := by rfl

/-! ## Python whitespace split and strip -/

/-- ASCII whitespace as recognised by `str.split()` / `str.strip()`. -/
def pySpace (c : Char) : Bool :=
  c = ' ' || c = '\t' || c = '\n' || c = '\r' ||
  c = Char.ofNat 11 || c = Char.ofNat 12

/-- `text.strip()`. -/
def pyStrip (cs : List Char) : List Char :=
  ((cs.dropWhile pySpace).reverse.dropWhile pySpace).reverse

/-- `text.split()` with no argument: split on whitespace runs, no empty
tokens. -/
def pySplit (cs : List Char) : List (List Char) :=
  (cs.splitOnP (pySpace ·)).filter (fun t => !t.isEmpty)

example : pySplit "  a  bc \n d ".data = [['a'], ['b', 'c'], ['d']] := by rfl

/-! ## `uuid.UUID(token)` acceptance

Model of which strings CPython's `uuid.UUID` constructor accepts:
it removes every occurrence of `urn:` and `uuid:`, strips `{`/`}` from
both ends, removes every `-`, requires exactly 32 remaining characters,
and parses them with `int(hex, 16)` (which allows a sign, an `0x`
prefix and single underscores between digits). -/

/-- Worker for `removeOcc`; every step consumes at least one character,
so fuel equal to the length of the input always suffices. -/
def removeOccAux : Nat → List Char → List Char → List Char
  | 0, _, s => s
  | fuel + 1, pat, s =>
    match s with
    | [] => []
    | c :: rest =>
      if pat ≠ [] ∧ pat.isPrefixOf (c :: rest) then
        removeOccAux fuel pat ((c :: rest).drop pat.length)
      else c :: removeOccAux fuel pat rest

/-- `s.replace(pat, "")` — remove every (non-overlapping, left-to-right)
occurrence of `pat`. -/
def removeOcc (pat : List Char) (s : List Char) : List Char :=
  removeOccAux s.length pat s

/-- `s.strip("{}")`. -/
def stripBraces (cs : List Char) : List Char :=
  let isBr := fun c => c = braceO || c = braceC
  ((cs.dropWhile isBr).reverse.dropWhile isBr).reverse

def isHexDigit (c : Char) : Bool :=
  ('0' ≤ c ∧ c ≤ '9') || ('a' ≤ c ∧ c ≤ 'f') || ('A' ≤ c ∧ c ≤ 'F')

/-- After the first digit: hex digits with single underscores allowed
only between digits. -/
def hexRest : List Char → Bool
  | [] => true
  | c :: rest =>
    if isHexDigit c then hexRest rest
    else if c = '_' then
      match rest with
      | d :: rest2 => isHexDigit d && hexRest rest2
      | [] => false
    else false

/-- Nonempty digit run with valid underscore placement. -/
def hexDigits : List Char → Bool
  | [] => false
  | c :: rest => isHexDigit c && hexRest rest

/-- Body of an `int(s, 16)` literal after any sign: optional `0x`/`0X`
prefix (an underscore may directly follow the prefix), then digits. -/
def pyIntBody16 (cs : List Char) : Bool :=
  match cs with
  | '0' :: c :: rest =>
    if c = 'x' || c = 'X' then
      match rest with
      | '_' :: r2 => hexDigits r2
      | _ => hexDigits rest
    else hexDigits ('0' :: c :: rest)
  | cs => hexDigits cs

/-- Does `int(s, 16)` succeed?  (Surrounding whitespace is permitted by
Python; the inputs here come from `str.split()` and contain none, and a
single leading sign is allowed.) -/
def pyIntOk16 (cs : List Char) : Bool :=
  let t := ((cs.dropWhile pySpace).reverse.dropWhile pySpace).reverse
  match t with
  | '+' :: rest => pyIntBody16 rest
  | '-' :: rest => pyIntBody16 rest
  | t => pyIntBody16 t

/-- Does `uuid.UUID(token)` succeed?  (The final range check
`0 <= int < 2**128` can never fail once 32 characters encode a
nonnegative hexadecimal value, so it is not modelled separately.) -/
def pyUUIDOk (token : List Char) : Bool :=
  let h1 := removeOcc "urn:".data token
  let h2 := removeOcc "uuid:".data h1
  let h3 := stripBraces h2
  let h4 := h3.filter (fun c => c ≠ '-')
  h4.length = 32 && pyIntOk16 h4

example : pyUUIDOk "123e4567-e89b-12d3-a456-426614174000".data = true := by rfl
example : pyUUIDOk "not-a-uuid".data = false := by rfl

/-- Model of `_extract_uuid`: scan the whitespace-delimited tokens from
the end and return the first (i.e. the last in the string) accepted by
`uuid.UUID`, exactly as it appears. -/
def extract_uuid (text : String) : Option (List Char) :=
  ((pySplit (pyStrip text.data)).reverse).find? pyUUIDOk

example :
    extract_uuid "Created skill 123e4567-e89b-12d3-a456-426614174000" =
      some "123e4567-e89b-12d3-a456-426614174000".data := by rfl
example : extract_uuid "no identifier here" = Option.none := by rfl

/-! ## The step executor `run_step`

The subprocess boundary is modelled by `ProcBehavior`: how long the
external process would run and what it would produce if allowed to
finish.  `subprocessRun` applies the timeout to that behaviour.
Filesystem writes are recorded as an ordered event trace, and raising
an exception is the `Except.error` result. -/

/-- `RunCtx` from the source (the environment mapping is carried but no
claim inspects it). -/
structure RunCtx where
  think_bin : String
  workspace : String
  store_name : String
  config_path : String
  logs_dir : String
  env : List (String × String)

/-- What the external process would do if run to completion. -/
structure ProcBehavior where
  duration : Nat
  rc : Int
  stdout : String
  stderr : String

inductive ProcOutcome where
  | completed (rc : Int) (stdout stderr : String)
  | timedOut
deriving DecidableEq

/-- `subprocess.run(..., timeout=t)`: with no timeout the process always
completes; with timeout `t` it is killed (raising `TimeoutExpired`) as
soon as its runtime exceeds `t`. -/
def subprocessRun (beh : ProcBehavior) (timeout : Option Int) : ProcOutcome :=
  match timeout with
  | Option.none => .completed beh.rc beh.stdout beh.stderr
  | some t =>
    if (beh.duration : Int) > t then .timedOut
    else .completed beh.rc beh.stdout beh.stderr

/-- `CHAT_TIMEOUT_S = int(os.environ.get("THINK_UC_CHAT_TIMEOUT_S", "1800"))`:
the integer value of the environment override when set, else 1800. -/
def CHAT_TIMEOUT_S (envOverride : Option Int) : Int := envOverride.getD 1800

/-- Does `args` contain adjacent elements `"chat"`, `"send"`
(the scan `for i in range(len(args) - 1): if args[i] == "chat" and
args[i+1] == "send"`)? -/
def hasChatSend : List String → Bool
  | "chat" :: "send" :: _ => true
  | _ :: rest => hasChatSend rest
  | [] => false

/-- The timeout normalization of `run_step` (lines 84-90): an explicit
positive timeout wins; otherwise zero/negative/absent normalizes to no
timeout; then a chat-send step with no timeout picks up the configured
default when that default is positive. -/
def effectiveTimeout (chatTimeout : Int) (timeout_s : Option Int)
    (args : List String) : Option Int :=
  let e : Option Int :=
    match timeout_s with
    | some t => if t > 0 then some t else Option.none
    | Option.none => Option.none
  match e with
  | some t => some t
  | Option.none =>
    if hasChatSend args then
      (if chatTimeout > 0 then some chatTimeout else Option.none)
    else Option.none

/-- `f"{int(time.time())}-{name}".replace("/", "_").replace(" ", "_")`. -/
def replChar (old new : Char) (cs : List Char) : List Char :=
  cs.map (fun c => if c = old then new else c)

def sanitizeChars (cs : List Char) : List Char :=
  replChar ' ' '_' (replChar '/' '_' cs)

def stepPfx (now : Nat) (name : String) : String :=
  String.mk (sanitizeChars (natChars now ++ '-' :: name.data))

def outPathOf (ctx : RunCtx) (now : Nat) (name : String) : String :=
  ctx.logs_dir ++ "/" ++ stepPfx now name ++ ".out.txt"

def errPathOf (ctx : RunCtx) (now : Nat) (name : String) : String :=
  ctx.logs_dir ++ "/" ++ stepPfx now name ++ ".err.txt"

def metaPathOf (ctx : RunCtx) (now : Nat) (name : String) : String :=
  ctx.logs_dir ++ "/" ++ stepPfx now name ++ ".meta.json"

/-- The full command line `[think_bin, "--store", store, "--workspace",
workspace] + args`. -/
def fullCmd (ctx : RunCtx) (args : List String) : List String :=
  [ctx.think_bin, "--store", ctx.store_name, "--workspace", ctx.workspace] ++ args

/-- `" ".join(shlex.quote(c) for c in cmd)`. -/
def safeCmdOf (ctx : RunCtx) (args : List String) : String :=
  String.intercalate " " ((fullCmd ctx args).map shlexQuote)

/-- The content of one `.meta.json` Step Record. -/
structure StepRecord where
  name : String
  cmd : String
  exit_code : Int
  duration_ms : Nat
  stdout_path : String
  stderr_path : String
deriving DecidableEq

/-- A filesystem write performed by `run_step`, in program order. -/
inductive Event where
  | wroteOut (path : String)
  | wroteErr (path : String)
  | wroteMeta (path : String) (record : StepRecord)
deriving DecidableEq

/-- The exceptions that can escape `run_step`: the script's own
`StepFailed`, and `subprocess.TimeoutExpired` raised from inside
`subprocess.run`. -/
inductive Exc where
  | stepFailed (msg : String)
  | timeoutExpired
deriving DecidableEq

/-- The tuple returned by `run_step`. -/
structure StepRet where
  rc : Int
  stdout : String
  stderr : String
  parsed : Option PyVal

/-- `s[:5000]`. -/
def trunc5000 (s : String) : String := String.mk (s.data.take 5000)

/-- Message of the `StepFailed` raised on a JSON parse failure (the
Python interpolation of the parse exception itself is abbreviated to a
fixed description). -/
def parseFailMsg (name safeCmd stdout stderr : String) : String :=
  "Step " ++ name ++ " expected JSON but could not parse stdout: " ++
    "invalid JSON" ++ "\ncmd=" ++ safeCmd ++
    "\nstdout=" ++ trunc5000 stdout ++ "\nstderr=" ++ trunc5000 stderr

/-- Message of the `StepFailed` raised on a non-zero exit code. -/
def exitFailMsg (name : String) (rc : Int) (safeCmd stdout stderr : String) :
    String :=
  "Step " ++ name ++ " failed (exit " ++ toString rc ++ ").\ncmd=" ++ safeCmd ++
    "\nstdout=" ++ trunc5000 stdout ++ "\nstderr=" ++ trunc5000 stderr

/-- Model of `run_step`.  `now` is `int(time.time())` at entry, `beh`
describes the external process.  Returns the ordered list of filesystem
writes that happened and either the returned tuple or the escaped
exception.

Faithful ordering notes: in the non-JSON branch the out/err log files
are opened (created) before the subprocess runs, so they exist even on
a timeout; in the JSON branch nothing is written before `subprocess.run`
returns, so a timeout escapes with no file written.  In both completed
branches the meta record is written before either `StepFailed` is
raised. -/
def run_step (chatTimeout : Int) (ctx : RunCtx) (now : Nat) (name : String)
    (args : List String) (json_output allow_fail : Bool)
    (timeout_s : Option Int) (beh : ProcBehavior) :
    List Event × Except Exc StepRet :=
  let safeCmd := safeCmdOf ctx args
  let out_path := outPathOf ctx now name
  let err_path := errPathOf ctx now name
  let meta_path := metaPathOf ctx now name
  let eff := effectiveTimeout chatTimeout timeout_s args
  match subprocessRun beh eff with
  | .timedOut =>
    if json_output then ([], .error .timeoutExpired)
    else ([.wroteOut out_path, .wroteErr err_path], .error .timeoutExpired)
  | .completed rc stdout_text stderr_text =>
    let record : StepRecord :=
      { name := name, cmd := safeCmd, exit_code := rc,
        duration_ms := beh.duration * 1000,
        stdout_path := out_path, stderr_path := err_path }
    let trace := [Event.wroteOut out_path, Event.wroteErr err_path,
                  Event.wroteMeta meta_path record]
    let parsedStep : Except Exc (Option PyVal) :=
      if json_output then
        match jsonLoads stdout_text with
        | some v => .ok (some v)
        | Option.none =>
          if allow_fail then .ok Option.none
          else .error (.stepFailed
            (parseFailMsg name safeCmd stdout_text stderr_text))
      else .ok Option.none
    let result : Except Exc StepRet :=
      match parsedStep with
      | .error e => .error e
      | .ok parsed =>
        if rc ≠ 0 ∧ allow_fail = false then
          .error (.stepFailed
            (exitFailMsg name rc safeCmd stdout_text stderr_text))
        else
          .ok { rc := rc, stdout := stdout_text,
                stderr := stderr_text, parsed := parsed }
    (trace, result)

/-! ## The run-level entry point -/

/-- What happens after `main` finishes or raises. -/
inductive MainOutcome where
  | exited (code : Int) (stderrMsg : Option String)
  | uncaught (e : Exc)
deriving DecidableEq

/-- Model of the `__main__` block: `SystemExit(main())` on success;
`except StepFailed as e: print(str(e), file=sys.stderr); SystemExit(1)`;
any other exception (such as `TimeoutExpired`) propagates uncaught. -/
def mainEntry : Except Exc Int → MainOutcome
  | .ok code => .exited code Option.none
  | .error (.stepFailed m) => .exited 1 (some m)
  | .error e => .uncaught e

/-! ## Entity helpers

Each helper is modelled over the behaviours of the step(s) it may run;
alongside the result it returns the list of step names it actually
invoked, so that fallback tiers (or their absence) are observable. -/

/-- A crude Python `repr` of a parsed JSON value, used only inside
error messages. -/
def pyReprStr : PyVal → String
  | .none => "None"
  | .bool true => "True"
  | .bool false => "False"
  | .int n => toString n
  | .str s => String.mk (sq :: s.data ++ [sq])
  | .list _ => "[...]"
  | .dict _ => String.mk (braceO :: '.' :: '.' :: '.' :: [braceC])

/-- Model of `create_chat`: one `run_step` with
`["chat", "create", "--title", title, "--format", "json"]`,
`json_output=True`, then `obj.get("id") if isinstance(obj, dict) else
None`, raising `StepFailed` when that is falsy.  There is no second
step: the returned trace is always `["chat_create"]`. -/
def create_chat (chatTimeout : Int) (ctx : RunCtx) (now : Nat)
    (title : String) (beh : ProcBehavior) :
    Except Exc PyVal × List String :=
  let r := run_step chatTimeout ctx now "chat_create"
    ["chat", "create", "--title", title, "--format", "json"]
    true false Option.none beh
  let result : Except Exc PyVal :=
    match r.2 with
    | .error e => .error e
    | .ok ret =>
      let obj := ret.parsed.getD .none
      let chat_id := if isDict obj then pyGet obj "id" else .none
      if pyTruthy chat_id then .ok chat_id
      else
        .error (.stepFailed
          ("chat create did not return id. stdout JSON: " ++ pyReprStr obj))
  (result, ["chat_create"])

/-- The argv assembled by `create_skill`. -/
def skillArgs (name instructions : String) (tools : List String) :
    List String :=
  ["skills", "create", "--name", name, "--description", "autogen:" ++ name,
   "--instructions", instructions, "--format", "json"] ++
    tools.flatMap (fun t => ["--tools", t])

/-- Tier-1 resolution of `create_skill` / `create_personality`:
`_extract_uuid(obj["message"])` when the response is a dict with a
string `message`. -/
def extractFromMessage (obj : PyVal) : Option (List Char) :=
  if isDict obj then
    match pyGet obj "message" with
    | .str m => extract_uuid m
    | _ => Option.none
  else Option.none

/-- Linear scan of a listed collection for the first dict entry whose
`"name"` equals `name`, yielding its `"id"` (the fallback tier of
`create_skill`). -/
def findIdByName (items : List PyVal) (name : String) : PyVal :=
  match items.find? (fun s =>
      isDict s &&
        (match pyGet s "name" with
         | .str n => n == name
         | _ => false)) with
  | some s => pyGet s "id"
  | Option.none => .none

/-- Model of `create_skill`: a create step requesting JSON; tier 1
extracts a UUID from a `message` string; on falsy result a
`skills_list` step is run and scanned by name; if still falsy,
`StepFailed`.  `behCreate`/`behList` are the behaviours of the two
possible subprocess invocations. -/
def create_skill (chatTimeout : Int) (ctx : RunCtx) (now : Nat)
    (name : String) (tools : List String) (instructions : String)
    (behCreate behList : ProcBehavior) :
    Except Exc PyVal × List String :=
  let stepName := "skill_create_" ++ name
  let r := run_step chatTimeout ctx now stepName
    (skillArgs name instructions tools) true false Option.none behCreate
  match r.2 with
  | .error e => (.error e, [stepName])
  | .ok ret =>
    let obj := ret.parsed.getD .none
    let skillId : PyVal :=
      match extractFromMessage obj with
      | some tok => .str (String.mk tok)
      | Option.none => .none
    if pyTruthy skillId then (.ok skillId, [stepName])
    else
      let r2 := run_step chatTimeout ctx now "skills_list"
        ["skills", "list", "--format", "json"] true false Option.none behList
      match r2.2 with
      | .error e => (.error e, [stepName, "skills_list"])
      | .ok ret2 =>
        let skills := ret2.parsed.getD .none
        let skillId2 : PyVal :=
          match skills with
          | .list items => findIdByName items name
          | _ => .none
        if pyTruthy skillId2 then (.ok skillId2, [stepName, "skills_list"])
        else
          (.error (.stepFailed ("Could not determine skill id for " ++ name)),
           [stepName, "skills_list"])

/-! ## Fallback candidate selection -/

/-- Python substring containment `pat in s` on character lists. -/
def containsSeq (pat : List Char) : List Char → Bool
  | [] => pat.isEmpty
  | c :: rest => pat.isPrefixOf (c :: rest) || containsSeq pat rest

/-- `"already downloaded" in (out + "\n" + err).lower()`.
(`Char.toLower` agrees with Python `str.lower` on the ASCII output the
CLI produces.) -/
def containsAlreadyDownloaded (s : String) : Bool :=
  containsSeq "already downloaded".data (s.data.map Char.toLower)

/-- The result of one `models download` attempt, run through
`run_step(..., allow_fail=True)` (which, with no JSON decoding and no
timeout, always returns rather than raising). -/
structure DlResult where
  rc : Int
  out : String
  err : String

/-- Acceptance test of one candidate inside
`pick_first_working_model_download`: exit code zero, or the combined
output contains the already-present marker. -/
def dlAccepts (r : DlResult) : Bool :=
  r.rc == 0 || containsAlreadyDownloaded (r.out ++ "\n" ++ r.err)

/-- `s[:2000]`. -/
def trunc2000 (s : String) : String := String.mk (s.data.take 2000)

/-- The `last_err` message recorded after a failed candidate. -/
def dlErrMsg (repo backend : String) (r : DlResult) : String :=
  "download failed for " ++ repo ++ " (" ++ backend ++ "): rc=" ++
    toString r.rc ++ "\n" ++ trunc2000 r.err

/-- Worker of `pick_first_working_model_download`: walk the candidates
in order, accepting the first that succeeds, threading `last_err`.
Besides the result it returns the list of repo ids actually attempted. -/
def pickAux (dl : String → String → DlResult) :
    List (String × String) → String → Except Exc String × List String
  | [], lastErr =>
    (.error (.stepFailed ("All model download candidates failed.\n" ++ lastErr)),
     [])
  | (repo, backend) :: rest, lastErr =>
    let r := dl repo backend
    if dlAccepts r then (.ok repo, [repo])
    else
      let next := pickAux dl rest (dlErrMsg repo backend r)
      (next.1, repo :: next.2)

/-- Model of `pick_first_working_model_download` (`last_err` starts as
Python `None`, rendered `"None"` if interpolated). -/
def pick_first_working_model_download (dl : String → String → DlResult)
    (candidates : List (String × String)) : Except Exc String × List String :=
  pickAux dl candidates "None"

/-- The language-model candidate list of `ensure_language_model`. -/
def lmCandidates : List (String × String) :=
  [("mlx-community/SmolLM-135M-4bit", "mlx"),
   ("mlx-community/SmolLM-360M-Instruct-4bit", "mlx"),
   ("mlx-community/SmolLM-1.7B-Instruct-4bit", "mlx")]

/-- `repo_id.replace("/", "_")` — the directory name checked under the
local models root. -/
def modelDirName (repo : String) : String :=
  String.mk (replChar '/' '_' repo.data)

/-- Model of `ensure_language_model`: return the first candidate whose
directory already exists locally (running no download step at all);
otherwise fall back to `pick_first_working_model_download` over the
whole candidate list. -/
def ensure_language_model (localExists : String → Bool)
    (dl : String → String → DlResult) : Except Exc String × List String :=
  match lmCandidates.find? (fun rb => localExists (modelDirName rb.1)) with
  | some rb => (.ok rb.1, [])
  | Option.none => pick_first_working_model_download dl lmCandidates

/-! ## Store reset -/

/-- `store_name[:-6] if store_name.endswith(".store") else store_name`. -/
def storeBaseOf (store_name : String) : String :=
  if ".store".data.isSuffixOf store_name.data then
    String.mk (store_name.data.take (store_name.length - 6))
  else store_name

/-- The application-support root under which the candidates live. -/
def appSupportRoot : String := "~/Library/Application Support"

/-- The candidate paths deleted by `reset_cli_store`, in source order.
`Path.with_suffix(p.suffix + ext)` appends `ext` to the name, so each
candidate is a plain string append to the base path. -/
def resetCandidates (store_name : String) : List String :=
  let base := appSupportRoot ++ "/" ++ storeBaseOf store_name
  [base ++ ".version",
   base,
   base ++ ".sqlite",
   base ++ ".sqlite-wal",
   base ++ ".sqlite-shm",
   base ++ ".store",
   base ++ ".store-wal",
   base ++ ".store-shm",
   base ++ ".store.store-wal",
   base ++ ".store.store-shm"]

/-- `p.unlink()`: fails (raising) when the deletion oracle says so,
otherwise removes the path from the filesystem. -/
def unlinkPath (deleteFails : String → Bool) (fs : String → Bool)
    (p : String) : Except String (String → Bool) :=
  if deleteFails p then .error ("unlink failed: " ++ p)
  else .ok (fun q => if q = p then false else fs q)

/-- One loop iteration of `reset_cli_store`:
`try: (if p.exists(): p.unlink()) except Exception: pass`. -/
def resetStep (deleteFails : String → Bool) (fs : String → Bool)
    (p : String) : String → Bool :=
  if fs p then
    match unlinkPath deleteFails fs p with
    | .ok fs2 => fs2
    | .error _ => fs
  else fs

/-- Model of `reset_cli_store`: best-effort deletion of every candidate
path.  Each unlink is wrapped in its own try/except, so the whole
operation always returns normally (`Except.ok`), whatever the
filesystem and whichever deletions fail. -/
def reset_cli_store (deleteFails : String → Bool) (store_name : String)
    (fs : String → Bool) : Except String (String → Bool) :=
  .ok ((resetCandidates store_name).foldl (resetStep deleteFails) fs)

/-! ## Helper lemmas -/

/-- Definitional restatement of `run_step`, exposing the match on the
subprocess outcome for rewriting. -/
lemma run_step_eq (chatTimeout : Int) (ctx : RunCtx) (now : Nat)
    (name : String) (args : List String) (json_output allow_fail : Bool)
    (timeout_s : Option Int) (beh : ProcBehavior) :
    run_step chatTimeout ctx now name args json_output allow_fail timeout_s beh =
      match subprocessRun beh (effectiveTimeout chatTimeout timeout_s args) with
      | .timedOut =>
        if json_output then ([], .error .timeoutExpired)
        else ([.wroteOut (outPathOf ctx now name),
               .wroteErr (errPathOf ctx now name)], .error .timeoutExpired)
      | .completed rc stdout_text stderr_text =>
        ([Event.wroteOut (outPathOf ctx now name),
          Event.wroteErr (errPathOf ctx now name),
          Event.wroteMeta (metaPathOf ctx now name)
            { name := name, cmd := safeCmdOf ctx args, exit_code := rc,
              duration_ms := beh.duration * 1000,
              stdout_path := outPathOf ctx now name,
              stderr_path := errPathOf ctx now name }],
         match (if json_output then
                  match jsonLoads stdout_text with
                  | some v => Except.ok (some v)
                  | Option.none =>
                    if allow_fail then Except.ok Option.none
                    else Except.error (Exc.stepFailed
                      (parseFailMsg name (safeCmdOf ctx args) stdout_text
                        stderr_text))
                else Except.ok Option.none : Except Exc (Option PyVal)) with
         | .error e => .error e
         | .ok parsed =>
           if rc ≠ 0 ∧ allow_fail = false then
             .error (.stepFailed
               (exitFailMsg name rc (safeCmdOf ctx args) stdout_text
                 stderr_text))
           else
             .ok { rc := rc, stdout := stdout_text, stderr := stderr_text,
                   parsed := parsed }) := rfl

/-! ## Concrete fixtures for witnesses and counterexamples -/

def ctx0 : RunCtx :=
  { think_bin := "think", workspace := "/ws", store_name := "codex-usecases",
    config_path := "cfg.json", logs_dir := "logs", env := [] }

/-! ## Claim C1 — Step Record written before any error -/

/-- C1 counterexample: when the subprocess hits its timeout,
`subprocess.run` raises before the `.meta.json` write is reached, so an
error escapes to the caller with no Step Record written at all (here in
the JSON branch even the out/err logs are missing: the write trace is
empty).  This refutes the claim for the timeout outcome. -/
theorem c1_counterexample :
    run_step 1800 ctx0 100 "timeout_probe" ["models", "download"] true false
        (some 1) ⟨10, 0, "", ""⟩ = ([], .error .timeoutExpired) := by rfl

/-- C1 (amended): whenever the subprocess completes — success, non-zero
exit, or JSON parse failure — the Step Record (`.meta.json` with name,
shell-quoted command, exit code, duration and both log paths) is
written, and it is on the write trace before any `StepFailed` is raised
to the caller; but when the subprocess times out, the exception
propagates without any Step Record being written. -/
theorem c1_step_record_before_error (chatTimeout : Int) (ctx : RunCtx)
    (now : Nat) (name : String) (args : List String)
    (json_output allow_fail : Bool) (timeout_s : Option Int)
    (beh : ProcBehavior) :
    (∀ rc out err,
      subprocessRun beh (effectiveTimeout chatTimeout timeout_s args) =
          .completed rc out err →
      (run_step chatTimeout ctx now name args json_output allow_fail
          timeout_s beh).1 =
        [Event.wroteOut (outPathOf ctx now name),
         Event.wroteErr (errPathOf ctx now name),
         Event.wroteMeta (metaPathOf ctx now name)
           { name := name, cmd := safeCmdOf ctx args, exit_code := rc,
             duration_ms := beh.duration * 1000,
             stdout_path := outPathOf ctx now name,
             stderr_path := errPathOf ctx now name }]) ∧
    (subprocessRun beh (effectiveTimeout chatTimeout timeout_s args) =
        .timedOut →
      ∀ p r, Event.wroteMeta p r ∉
        (run_step chatTimeout ctx now name args json_output allow_fail
          timeout_s beh).1) := by
  constructor
  · intro rc out err hc
    rw [run_step_eq, hc]
  · intro ht p r
    rw [run_step_eq, ht]
    cases json_output <;> simp

/-- Witness for C1: a concrete failing step (exit 2) still gets its full
write trace ending in the Step Record. -/
theorem c1_step_record_before_error_witness :
    (run_step 1800 ctx0 100 "status_pre" ["status"] false false
        Option.none ⟨3, 2, "boom", "bad"⟩).1 =
      [Event.wroteOut (outPathOf ctx0 100 "status_pre"),
       Event.wroteErr (errPathOf ctx0 100 "status_pre"),
       Event.wroteMeta (metaPathOf ctx0 100 "status_pre")
         { name := "status_pre", cmd := safeCmdOf ctx0 ["status"],
           exit_code := 2, duration_ms := 3000,
           stdout_path := outPathOf ctx0 100 "status_pre",
           stderr_path := errPathOf ctx0 100 "status_pre" }] :=
  (c1_step_record_before_error 1800 ctx0 100 "status_pre" ["status"]
    false false Option.none ⟨3, 2, "boom", "bad"⟩).1 2 "boom" "bad" rfl

/-! ## Claim C2 — non-positive explicit timeout means no timeout -/

/-- C2 counterexample: an explicit `timeout_s = 0` on a chat-send argv
does NOT disable the timeout — the zero is normalized away and the
default chat-send timeout (1800 s) is applied, killing a 2000-second
process.  This refutes "never killed, for every argv". -/
theorem c2_counterexample :
    (run_step 1800 ctx0 100 "chat_send_uc1" ["chat", "send"] false false
        (some 0) ⟨2000, 0, "", ""⟩).2 = .error .timeoutExpired := by rfl

/-- C2 (amended): an explicitly passed non-positive timeout enforces no
timeout — the subprocess always runs to completion and is never killed —
provided the argv is not a chat-send (or the configured chat-send
default is itself non-positive); a chat-send argv instead falls through
to the default chat-send timeout. -/
theorem c2_nonpositive_timeout_no_kill (chatTimeout : Int) (ctx : RunCtx)
    (now : Nat) (name : String) (args : List String)
    (json_output allow_fail : Bool) (t : Int) (beh : ProcBehavior)
    (ht : t ≤ 0) (hnc : hasChatSend args = false ∨ chatTimeout ≤ 0) :
    effectiveTimeout chatTimeout (some t) args = Option.none ∧
    subprocessRun beh (effectiveTimeout chatTimeout (some t) args) =
      .completed beh.rc beh.stdout beh.stderr ∧
    (run_step chatTimeout ctx now name args json_output allow_fail (some t)
        beh).2 ≠ .error .timeoutExpired := by
  have he : effectiveTimeout chatTimeout (some t) args = Option.none := by
    rcases hnc with h | h
    · simp [effectiveTimeout, show ¬t > 0 by omega, h]
    · simp [effectiveTimeout, show ¬t > 0 by omega, show ¬chatTimeout > 0 by omega]
  refine ⟨he, by rw [he]; rfl, ?_⟩
  rw [run_step_eq, he]
  show (match subprocessRun beh Option.none with | _ => _ : List Event × Except Exc StepRet).2 ≠ _
  cases hj : jsonLoads beh.stdout <;>
    cases json_output <;> cases allow_fail <;>
      simp [subprocessRun, hj] <;> split <;> simp

/-- Witness for C2: a non-chat step with `timeout_s = 0` and a
long-running process completes. -/
theorem c2_nonpositive_timeout_no_kill_witness :
    effectiveTimeout 1800 (some 0) ["status"] = Option.none ∧
    subprocessRun ⟨99999, 0, "ok", ""⟩
        (effectiveTimeout 1800 (some 0) ["status"]) =
      .completed 0 "ok" "" ∧
    (run_step 1800 ctx0 100 "status_pre" ["status"] false false (some 0)
        ⟨99999, 0, "ok", ""⟩).2 ≠ .error .timeoutExpired :=
  c2_nonpositive_timeout_no_kill 1800 ctx0 100 "status_pre" ["status"]
    false false 0 ⟨99999, 0, "ok", ""⟩ (by decide) (Or.inl rfl)

/-! ## Claim C3 — default chat-send timeout -/

/-- C3: for any argv containing adjacent "chat" "send" tokens and no
positive explicit timeout, the configurable default chat-send timeout is
applied: the environment override value when set, else 1800 seconds; an
explicit zero override disables the timeout for such steps. -/
theorem c3_chat_send_default_timeout (envOverride : Option Int)
    (args : List String) (timeout_s : Option Int)
    (hchat : hasChatSend args = true)
    (hnopos : ∀ x, timeout_s = some x → x ≤ 0) :
    effectiveTimeout (CHAT_TIMEOUT_S envOverride) timeout_s args =
      (if CHAT_TIMEOUT_S envOverride > 0
       then some (CHAT_TIMEOUT_S envOverride) else Option.none) ∧
    CHAT_TIMEOUT_S Option.none = 1800 ∧
    (envOverride = some 0 →
      effectiveTimeout (CHAT_TIMEOUT_S envOverride) timeout_s args =
        Option.none) := by
  have he : effectiveTimeout (CHAT_TIMEOUT_S envOverride) timeout_s args =
      (if CHAT_TIMEOUT_S envOverride > 0
       then some (CHAT_TIMEOUT_S envOverride) else Option.none) := by
    cases timeout_s with
    | none => simp [effectiveTimeout, hchat]
    | some x =>
      have hx := hnopos x rfl
      simp [effectiveTimeout, hchat, show ¬x > 0 by omega]
  refine ⟨he, rfl, ?_⟩
  intro h0
  rw [he, h0]
  rfl

/-- Witness for C3: a chat-send step with no explicit timeout and no
environment override gets the 1800-second default. -/
theorem c3_chat_send_default_timeout_witness :
    effectiveTimeout (CHAT_TIMEOUT_S Option.none) Option.none
        ["chat", "send", "--session", "s"] = some 1800 := by
  have h := (c3_chat_send_default_timeout Option.none
    ["chat", "send", "--session", "s"] Option.none rfl
    (by intro x hx; cases hx)).1
  simpa using h

/-! ## Claim C4 — failure classification and allow_fail -/

/-- C4 counterexample: with `allow_fail=True`, `json_output=True`, a
non-zero exit code and PARSEABLE stdout, the swallowed result carries
the parsed JSON value — not the null parsed value the claim promises. -/
theorem c4_counterexample :
    (run_step 1800 ctx0 100 "chat_send_uc3_expect_denied" [] true true
        Option.none ⟨1, 1, "[]", ""⟩).2 =
      .ok { rc := 1, stdout := "[]", stderr := "",
            parsed := some (.list []) } := by rfl

/-- C4 (amended): for a completed subprocess, `run_step` raises a
`StepFailed` if and only if `allow_fail` is false and either the exit
code is non-zero or `json_output` is true with unparseable stdout; with
`allow_fail` true it returns the raw result, whose parsed value is the
decoded JSON when stdout parsed and null when it did not (or when no
JSON was requested). -/
theorem c4_step_failure_iff (chatTimeout : Int) (ctx : RunCtx) (now : Nat)
    (name : String) (args : List String) (json_output allow_fail : Bool)
    (timeout_s : Option Int) (beh : ProcBehavior) (rc : Int)
    (out err : String)
    (hc : subprocessRun beh (effectiveTimeout chatTimeout timeout_s args) =
      .completed rc out err) :
    ((∃ m, (run_step chatTimeout ctx now name args json_output allow_fail
        timeout_s beh).2 = .error (.stepFailed m)) ↔
      (allow_fail = false ∧
        (rc ≠ 0 ∨ (json_output = true ∧ jsonLoads out = Option.none)))) ∧
    (allow_fail = true →
      (run_step chatTimeout ctx now name args json_output allow_fail
          timeout_s beh).2 =
        .ok { rc := rc, stdout := out, stderr := err,
              parsed := if json_output then jsonLoads out
                        else Option.none }) := by
  rw [run_step_eq, hc]
  by_cases hrc : rc = 0 <;>
    cases json_output <;> cases allow_fail <;>
      cases hj : jsonLoads out <;> simp [hrc, hj]

/-- Witness for C4: the sentinel case the spec describes — tolerated
parse failure returns the raw result with a null parsed value. -/
theorem c4_step_failure_iff_witness :
    (run_step 1800 ctx0 100 "config_set_skills_empty" [] true true
        Option.none ⟨1, 1, "not json", "warn"⟩).2 =
      .ok { rc := 1, stdout := "not json", stderr := "warn",
            parsed := Option.none } :=
  (c4_step_failure_iff 1800 ctx0 100 "config_set_skills_empty" [] true true
    Option.none ⟨1, 1, "not json", "warn"⟩ 1 "not json" "warn" rfl).2 rfl

/-! ## Claim C9 — single fatal error kind -/

/-- C9 counterexample: a timeout failure escapes `run_step` as
`TimeoutExpired`, which is not the `StepFailed` kind, and the run-level
entry point does not catch it — refuting "every fatal condition is
raised as the single error kind StepFailure". -/
theorem c9_counterexample :
    (run_step 1800 ctx0 100 "doctor_pre" ["doctor"] true false (some 1)
        ⟨10, 0, "", ""⟩).2 = .error .timeoutExpired ∧
    mainEntry (.error .timeoutExpired) = .uncaught .timeoutExpired :=
  ⟨rfl, rfl⟩

/-! (The C9 theorem and witness appear further below, after the helper
lemmas about `run_step`, the entity helpers and the fallback selector
that their proof uses.) -/

/-! ## Helper lemmas for the remaining claims -/

/-- Every error escaping `run_step` when the subprocess completed is of
the `StepFailed` kind (the only other kind, `TimeoutExpired`, arises
only from a timed-out subprocess). -/
lemma run_step_completed_error_stepFailed (chatTimeout : Int) (ctx : RunCtx)
    (now : Nat) (name : String) (args : List String)
    (json_output allow_fail : Bool) (timeout_s : Option Int)
    (beh : ProcBehavior) (rc : Int) (out err : String)
    (hc : subprocessRun beh (effectiveTimeout chatTimeout timeout_s args) =
      .completed rc out err) :
    ∀ e, (run_step chatTimeout ctx now name args json_output allow_fail
        timeout_s beh).2 = .error e → ∃ m, e = .stepFailed m := by
  intro e he
  rw [run_step_eq, hc] at he
  by_cases hrc : rc = 0 <;>
    cases json_output <;> cases allow_fail <;>
      cases hj : jsonLoads out <;>
        simp [hrc, hj] at he <;> subst he <;> exact ⟨_, rfl⟩

lemma find?_of_decomp {α : Type} (p : α → Bool) (pre : List α) (x : α)
    (post : List α) (hpre : ∀ y ∈ pre, p y = false) (hx : p x = true) :
    (pre ++ x :: post).find? p = some x := by
  induction pre with
  | nil => simpa [List.find?_cons] using List.find?_cons_of_pos post hx
  | cons a as ih =>
    have ha := hpre a (by simp)
    rw [List.cons_append, List.find?_cons_of_neg _ (by simp [ha])]
    exact ih (fun y hy => hpre y (by simp [hy]))

lemma find?_eq_head?_filter {α : Type} (p : α → Bool) :
    ∀ l : List α, l.find? p = (l.filter p).head? := by
  intro l
  induction l with
  | nil => rfl
  | cons a as ih =>
    by_cases h : p a = true
    · rw [List.find?_cons_of_pos _ h, List.filter_cons_of_pos h, List.head?_cons]
    · rw [List.find?_cons_of_neg _ (by simpa using h),
        List.filter_cons_of_neg (by simpa using h), ih]

lemma find?_reverse_eq_getLast?_filter {α : Type} (p : α → Bool)
    (l : List α) : l.reverse.find? p = (l.filter p).getLast? := by
  rw [find?_eq_head?_filter, List.filter_reverse, List.head?_reverse]

lemma pickAux_nil (dl : String → String → DlResult) (le : String) :
    pickAux dl [] le =
      (.error (.stepFailed ("All model download candidates failed.\n" ++ le)),
       []) := rfl

lemma pickAux_cons (dl : String → String → DlResult) (repo backend : String)
    (rest : List (String × String)) (le : String) :
    pickAux dl ((repo, backend) :: rest) le =
      (if dlAccepts (dl repo backend) = true then (.ok repo, [repo])
       else
        ((pickAux dl rest (dlErrMsg repo backend (dl repo backend))).1,
         repo ::
           (pickAux dl rest (dlErrMsg repo backend (dl repo backend))).2)) :=
  rfl

/-- Every error produced by the fallback selector is of the `StepFailed`
kind: its download attempts run with `allow_fail=True` and the only
raise in it is the aggregated `StepFailed` after exhaustion. -/
lemma pickAux_error_stepFailed (dl : String → String → DlResult) :
    ∀ (cands : List (String × String)) (le : String) (e : Exc),
    (pickAux dl cands le).1 = .error e → ∃ m, e = .stepFailed m := by
  intro cands
  induction cands with
  | nil =>
    intro le e he
    rw [pickAux_nil] at he
    simp at he
    subst he
    exact ⟨_, rfl⟩
  | cons a as ih =>
    intro le e he
    obtain ⟨repo, backend⟩ := a
    rw [pickAux_cons] at he
    by_cases hacc : dlAccepts (dl repo backend) = true
    · rw [if_pos hacc] at he
      simp at he
    · rw [if_neg hacc] at he
      exact ih _ e (by simpa using he)

lemma pickAux_accepts (dl : String → String → DlResult) :
    ∀ (pre : List (String × String)) (rb : String × String)
      (post : List (String × String)) (le : String),
    (∀ x ∈ pre, dlAccepts (dl x.1 x.2) = false) →
    dlAccepts (dl rb.1 rb.2) = true →
    pickAux dl (pre ++ rb :: post) le =
      (.ok rb.1, pre.map Prod.fst ++ [rb.1]) := by
  intro pre
  induction pre with
  | nil =>
    intro rb post le _ hx
    obtain ⟨repo, backend⟩ := rb
    rw [List.nil_append, pickAux_cons, if_pos hx]
    simp
  | cons a as ih =>
    intro rb post le hpre hx
    obtain ⟨repo, backend⟩ := a
    have ha := hpre (repo, backend) (by simp)
    have hrec := ih rb post (dlErrMsg repo backend (dl repo backend))
      (fun y hy => hpre y (by simp [hy])) hx
    rw [List.cons_append, pickAux_cons, if_neg (by simp [ha]), hrec]
    simp

lemma pickAux_all_fail (dl : String → String → DlResult) :
    ∀ (cands : List (String × String)) (lastc : String × String)
      (le : String),
    (∀ x ∈ cands, dlAccepts (dl x.1 x.2) = false) →
    cands.getLast? = some lastc →
    pickAux dl cands le =
      (.error (.stepFailed ("All model download candidates failed.\n" ++
         dlErrMsg lastc.1 lastc.2 (dl lastc.1 lastc.2))),
       cands.map Prod.fst) := by
  intro cands
  induction cands with
  | nil => intro lastc le _ hl; cases hl
  | cons a as ih =>
    intro lastc le h hl
    obtain ⟨repo, backend⟩ := a
    have ha := h (repo, backend) (by simp)
    cases as with
    | nil =>
      have hlc : lastc = (repo, backend) := by
        simpa [List.getLast?_singleton] using hl.symm
      subst hlc
      rw [pickAux_cons, if_neg (by simp [ha]), pickAux_nil]
      simp
    | cons b bs =>
      rw [List.getLast?_cons_cons] at hl
      have hrec := ih lastc (dlErrMsg repo backend (dl repo backend))
        (fun y hy => h y (by simp [hy])) hl
      rw [pickAux_cons, if_neg (by simp [ha]), hrec]
      simp

lemma foldl_resetStep_no_files (deleteFails : String → Bool) :
    ∀ (l : List String) (fs : String → Bool),
    (∀ p ∈ l, fs p = false) →
    l.foldl (resetStep deleteFails) fs = fs := by
  intro l
  induction l with
  | nil => intro fs _; rfl
  | cons a as ih =>
    intro fs h
    have ha := h a (by simp)
    simp only [List.foldl_cons, resetStep, ha]
    exact ih fs (fun p hp => h p (by simp [hp]))

lemma run_step_json_zero_ok (chatTimeout : Int) (ctx : RunCtx) (now : Nat)
    (name : String) (args : List String) (beh : ProcBehavior)
    (out err : String) (j : PyVal)
    (hc : subprocessRun beh (effectiveTimeout chatTimeout Option.none args) =
      .completed 0 out err)
    (hj : jsonLoads out = some j) :
    (run_step chatTimeout ctx now name args true false Option.none beh).2 =
      .ok { rc := 0, stdout := out, stderr := err, parsed := some j } := by
  rw [run_step_eq, hc]
  simp [hj]

/-- Definitional restatement of `create_chat` for rewriting. -/
lemma create_chat_eq (chatTimeout : Int) (ctx : RunCtx) (now : Nat)
    (title : String) (beh : ProcBehavior) :
    create_chat chatTimeout ctx now title beh =
      ((match (run_step chatTimeout ctx now "chat_create"
            ["chat", "create", "--title", title, "--format", "json"]
            true false Option.none beh).2 with
        | .error e => .error e
        | .ok ret =>
          let obj := ret.parsed.getD .none
          let chat_id := if isDict obj then pyGet obj "id" else .none
          if pyTruthy chat_id then .ok chat_id
          else
            .error (.stepFailed
              ("chat create did not return id. stdout JSON: " ++
                pyReprStr obj))),
       ["chat_create"]) := rfl

/-- Definitional restatement of `create_skill` for rewriting. -/
lemma create_skill_eq (chatTimeout : Int) (ctx : RunCtx) (now : Nat)
    (name : String) (tools : List String) (instructions : String)
    (behCreate behList : ProcBehavior) :
    create_skill chatTimeout ctx now name tools instructions
        behCreate behList =
      (match (run_step chatTimeout ctx now ("skill_create_" ++ name)
          (skillArgs name instructions tools) true false Option.none
          behCreate).2 with
       | .error e => (.error e, ["skill_create_" ++ name])
       | .ok ret =>
         let obj := ret.parsed.getD .none
         let skillId : PyVal :=
           match extractFromMessage obj with
           | some tok => .str (String.mk tok)
           | Option.none => .none
         if pyTruthy skillId then (.ok skillId, ["skill_create_" ++ name])
         else
           match (run_step chatTimeout ctx now "skills_list"
               ["skills", "list", "--format", "json"] true false Option.none
               behList).2 with
           | .error e => (.error e, ["skill_create_" ++ name, "skills_list"])
           | .ok ret2 =>
             let skills := ret2.parsed.getD .none
             let skillId2 : PyVal :=
               match skills with
               | .list items => findIdByName items name
               | _ => .none
             if pyTruthy skillId2 then
               (.ok skillId2, ["skill_create_" ++ name, "skills_list"])
             else
               (.error (.stepFailed
                  ("Could not determine skill id for " ++ name)),
                ["skill_create_" ++ name, "skills_list"])) := rfl

/-- Every error escaping `create_chat` when its subprocess completed —
a propagated step failure or the helper's own resolution failure — is of
the `StepFailed` kind. -/
lemma create_chat_error_stepFailed (chatTimeout : Int) (ctx : RunCtx)
    (now : Nat) (title : String) (beh : ProcBehavior) (rc : Int)
    (out err : String)
    (hc : subprocessRun beh (effectiveTimeout chatTimeout Option.none
        ["chat", "create", "--title", title, "--format", "json"]) =
      .completed rc out err) :
    ∀ e, (create_chat chatTimeout ctx now title beh).1 = .error e →
      ∃ m, e = .stepFailed m := by
  intro e he
  rw [create_chat_eq] at he
  cases hr : (run_step chatTimeout ctx now "chat_create"
      ["chat", "create", "--title", title, "--format", "json"]
      true false Option.none beh).2 with
  | error e0 =>
    rw [hr] at he
    simp at he
    subst he
    exact run_step_completed_error_stepFailed chatTimeout ctx now
      "chat_create" ["chat", "create", "--title", title, "--format", "json"]
      true false Option.none beh rc out err hc e0 hr
  | ok ret =>
    rw [hr] at he
    simp only at he
    split_ifs at he
    all_goals simp at he
    all_goals (subst he; exact ⟨_, rfl⟩)

/-- Every error escaping `create_skill` when both its subprocesses
completed — a propagated step failure from either tier or the final
resolution failure — is of the `StepFailed` kind. -/
lemma create_skill_error_stepFailed (chatTimeout : Int) (ctx : RunCtx)
    (now : Nat) (name : String) (tools : List String)
    (instructions : String) (behCreate behList : ProcBehavior)
    (rcC : Int) (outC errC : String) (rcL : Int) (outL errL : String)
    (hcC : subprocessRun behCreate (effectiveTimeout chatTimeout Option.none
        (skillArgs name instructions tools)) = .completed rcC outC errC)
    (hcL : subprocessRun behList (effectiveTimeout chatTimeout Option.none
        ["skills", "list", "--format", "json"]) = .completed rcL outL errL) :
    ∀ e, (create_skill chatTimeout ctx now name tools instructions
        behCreate behList).1 = .error e →
      ∃ m, e = .stepFailed m := by
  intro e he
  rw [create_skill_eq] at he
  cases hrC : (run_step chatTimeout ctx now ("skill_create_" ++ name)
      (skillArgs name instructions tools) true false Option.none
      behCreate).2 with
  | error e0 =>
    rw [hrC] at he
    simp at he
    subst he
    exact run_step_completed_error_stepFailed chatTimeout ctx now
      ("skill_create_" ++ name) (skillArgs name instructions tools)
      true false Option.none behCreate rcC outC errC hcC e0 hrC
  | ok ret =>
    rw [hrC] at he
    cases hrL : (run_step chatTimeout ctx now "skills_list"
        ["skills", "list", "--format", "json"] true false Option.none
        behList).2 with
    | error e1 =>
      rw [hrL] at he
      simp only at he
      split_ifs at he
      all_goals simp at he
      all_goals
        (subst he
         exact run_step_completed_error_stepFailed chatTimeout ctx now
           "skills_list" ["skills", "list", "--format", "json"]
           true false Option.none behList rcL outL errL hcL e1 hrL)
    | ok ret2 =>
      rw [hrL] at he
      simp only at he
      split_ifs at he
      all_goals simp at he
      all_goals (subst he; exact ⟨_, rfl⟩)

/-! ## Claim C9 — single fatal error kind (theorem and witness) -/

/-- C9 (amended): every fatal condition arising from completed
subprocesses — process-level failure (non-zero exit), protocol (JSON
parse) failure, and resolution failure (an entity helper unable to
determine a created resource's id, or the fallback selector exhausting
its candidates) — is raised as the single kind `StepFailed` carrying a
human-readable diagnostic, which the run-level entry point alone catches
to print the message to standard error and exit 1; a timeout failure
however is raised as the distinct `TimeoutExpired` kind, which that
handler does not catch. -/
theorem c9_single_error_kind :
    (∀ (chatTimeout : Int) (ctx : RunCtx) (now : Nat) (name : String)
        (args : List String) (json_output allow_fail : Bool)
        (timeout_s : Option Int) (beh : ProcBehavior) (rc : Int)
        (out err : String),
      subprocessRun beh (effectiveTimeout chatTimeout timeout_s args) =
          .completed rc out err →
      ∀ e, (run_step chatTimeout ctx now name args json_output allow_fail
          timeout_s beh).2 = .error e →
        ∃ m, e = .stepFailed m ∧
          mainEntry (.error e) = .exited 1 (some m)) ∧
    (∀ (chatTimeout : Int) (ctx : RunCtx) (now : Nat) (name : String)
        (args : List String) (json_output allow_fail : Bool)
        (timeout_s : Option Int) (beh : ProcBehavior),
      subprocessRun beh (effectiveTimeout chatTimeout timeout_s args) =
          .timedOut →
      (run_step chatTimeout ctx now name args json_output allow_fail
          timeout_s beh).2 = .error .timeoutExpired ∧
      mainEntry (.error .timeoutExpired) = .uncaught .timeoutExpired) ∧
    (∀ (chatTimeout : Int) (ctx : RunCtx) (now : Nat) (title : String)
        (beh : ProcBehavior) (rc : Int) (out err : String),
      subprocessRun beh (effectiveTimeout chatTimeout Option.none
          ["chat", "create", "--title", title, "--format", "json"]) =
        .completed rc out err →
      ∀ e, (create_chat chatTimeout ctx now title beh).1 = .error e →
        ∃ m, e = .stepFailed m ∧
          mainEntry (.error e) = .exited 1 (some m)) ∧
    (∀ (chatTimeout : Int) (ctx : RunCtx) (now : Nat) (name : String)
        (tools : List String) (instructions : String)
        (behCreate behList : ProcBehavior) (rcC : Int) (outC errC : String)
        (rcL : Int) (outL errL : String),
      subprocessRun behCreate (effectiveTimeout chatTimeout Option.none
          (skillArgs name instructions tools)) = .completed rcC outC errC →
      subprocessRun behList (effectiveTimeout chatTimeout Option.none
          ["skills", "list", "--format", "json"]) =
        .completed rcL outL errL →
      ∀ e, (create_skill chatTimeout ctx now name tools instructions
          behCreate behList).1 = .error e →
        ∃ m, e = .stepFailed m ∧
          mainEntry (.error e) = .exited 1 (some m)) ∧
    (∀ (dl : String → String → DlResult) (cands : List (String × String))
        (e : Exc),
      (pick_first_working_model_download dl cands).1 = .error e →
        ∃ m, e = .stepFailed m ∧
          mainEntry (.error e) = .exited 1 (some m)) := by
  have pack : ∀ e : Exc, (∃ m, e = .stepFailed m) →
      ∃ m, e = .stepFailed m ∧ mainEntry (.error e) = .exited 1 (some m) := by
    rintro e ⟨m, rfl⟩
    exact ⟨m, rfl, rfl⟩
  refine ⟨?_, ?_, ?_, ?_, ?_⟩
  · intro chatTimeout ctx now name args json_output allow_fail timeout_s
      beh rc out err hc e he
    exact pack e (run_step_completed_error_stepFailed chatTimeout ctx now
      name args json_output allow_fail timeout_s beh rc out err hc e he)
  · intro chatTimeout ctx now name args json_output allow_fail timeout_s
      beh ht
    rw [run_step_eq, ht]
    cases json_output <;> exact ⟨rfl, rfl⟩
  · intro chatTimeout ctx now title beh rc out err hc e he
    exact pack e (create_chat_error_stepFailed chatTimeout ctx now title
      beh rc out err hc e he)
  · intro chatTimeout ctx now name tools instructions behCreate behList
      rcC outC errC rcL outL errL hcC hcL e he
    exact pack e (create_skill_error_stepFailed chatTimeout ctx now name
      tools instructions behCreate behList rcC outC errC rcL outL errL
      hcC hcL e he)
  · intro dl cands e he
    exact pack e (pickAux_error_stepFailed dl cands "None" e he)

/-- Witness for C9: a concrete non-zero-exit failure, and a concrete
selector resolution failure, are `StepFailed` errors that the entry
point catches, printing their message and exiting 1. -/
theorem c9_single_error_kind_witness :
    (∃ m, Exc.stepFailed
        (exitFailMsg "doctor_pre" 2 (safeCmdOf ctx0 ["doctor"]) "o" "e") =
          .stepFailed m ∧
      mainEntry (.error (Exc.stepFailed
        (exitFailMsg "doctor_pre" 2 (safeCmdOf ctx0 ["doctor"]) "o" "e"))) =
        .exited 1 (some m)) ∧
    (∃ m, Exc.stepFailed ("All model download candidates failed.\n" ++
        dlErrMsg "a/x" "mlx" ⟨1, "", "nope"⟩) = .stepFailed m ∧
      mainEntry (.error (Exc.stepFailed
        ("All model download candidates failed.\n" ++
          dlErrMsg "a/x" "mlx" ⟨1, "", "nope"⟩))) = .exited 1 (some m)) :=
  ⟨c9_single_error_kind.1 1800 ctx0 100 "doctor_pre" ["doctor"] false false
      Option.none ⟨1, 2, "o", "e"⟩ 2 "o" "e" rfl _ rfl,
   c9_single_error_kind.2.2.2.2 (fun _ _ => ⟨1, "", "nope"⟩)
      [("a/x", "mlx")] _ rfl⟩

/-! ### Decimal rendering: digit range and injectivity -/

lemma digit_toNat (r : Nat) (hr : r < 10) :
    (Char.ofNat (48 + r)).toNat = 48 + r := by
  interval_cases r <;> decide

lemma natCharsAux_mem : ∀ (fuel n : Nat) (acc : List Char) (c : Char),
    c ∈ natCharsAux fuel n acc →
    c ∈ acc ∨ (48 ≤ c.toNat ∧ c.toNat ≤ 57) := by
  intro fuel
  induction fuel with
  | zero => intro n acc c hc; exact Or.inl hc
  | succ fuel ih =>
    intro n acc c hc
    by_cases hn : n = 0
    · subst hn; exact Or.inl hc
    · rw [natCharsAux, if_neg hn] at hc
      rcases ih (n / 10) _ c hc with hmem | hrange
      · rcases List.mem_cons.mp hmem with hd | hacc
        · right
          have h10 : n % 10 < 10 := Nat.mod_lt n (by decide)
          rw [hd, digit_toNat _ h10]
          omega
        · exact Or.inl hacc
      · exact Or.inr hrange

lemma natChars_digits (n : Nat) :
    ∀ c ∈ natChars n, 48 ≤ c.toNat ∧ c.toNat ≤ 57 := by
  intro c hc
  unfold natChars at hc
  by_cases hn : n = 0
  · rw [if_pos hn] at hc
    simp at hc
    subst hc
    decide
  · rw [if_neg hn] at hc
    rcases natCharsAux_mem (n + 1) n [] c hc with h | h
    · cases h
    · exact h

lemma natCharsAux_shift : ∀ (fuel n : Nat) (acc : List Char), n < fuel →
    natCharsAux fuel n acc = natCharsAux fuel n [] ++ acc := by
  intro fuel
  induction fuel with
  | zero => intro n acc hn; omega
  | succ fuel ih =>
    intro n acc hn
    by_cases h0 : n = 0
    · subst h0; rfl
    · have hdiv : n / 10 < fuel := by
        have h1 : n / 10 < n := Nat.div_lt_self (Nat.pos_of_ne_zero h0) (by decide)
        omega
      rw [natCharsAux, if_neg h0, natCharsAux, if_neg h0,
        ih (n / 10) (Char.ofNat (48 + n % 10) :: acc) hdiv,
        ih (n / 10) [Char.ofNat (48 + n % 10)] hdiv,
        List.append_assoc]
      rfl

/-- `int(str(n))` — the numeric value a digit string denotes, threading
an accumulator. -/
def charsValFrom (i : Nat) (cs : List Char) : Nat :=
  cs.foldl (fun a c => 10 * a + (c.toNat - 48)) i

lemma natCharsAux_val : ∀ (fuel n i : Nat), n < fuel →
    charsValFrom i (natCharsAux fuel n []) =
      i * 10 ^ (natCharsAux fuel n []).length + n := by
  intro fuel
  induction fuel with
  | zero => intro n i hn; omega
  | succ fuel ih =>
    intro n i hn
    by_cases h0 : n = 0
    · subst h0; simp [natCharsAux, charsValFrom]
    · have hdiv : n / 10 < fuel := by
        have h1 : n / 10 < n := Nat.div_lt_self (Nat.pos_of_ne_zero h0) (by decide)
        omega
      have h10 : n % 10 < 10 := Nat.mod_lt n (by decide)
      rw [natCharsAux, if_neg h0, natCharsAux_shift fuel (n / 10) _ hdiv]
      have hfoldl :
          charsValFrom i (natCharsAux fuel (n / 10) [] ++
            [Char.ofNat (48 + n % 10)]) =
          10 * charsValFrom i (natCharsAux fuel (n / 10) []) +
            ((Char.ofNat (48 + n % 10)).toNat - 48) := by
        unfold charsValFrom
        rw [List.foldl_append]
        rfl
      rw [hfoldl, ih (n / 10) i hdiv, digit_toNat _ h10,
        List.length_append, List.length_singleton]
      have hdm : 10 * (n / 10) + n % 10 = n := Nat.div_add_mod n 10
      have : 48 + n % 10 - 48 = n % 10 := by omega
      rw [this, pow_succ]
      set K := 10 ^ (natCharsAux fuel (n / 10) []).length
      set q := n / 10
      calc 10 * (i * K + q) + n % 10 = i * (K * 10) + (10 * q + n % 10) := by
            ring
        _ = i * (K * 10) + n := by rw [hdm]

lemma natChars_val (n : Nat) : charsValFrom 0 (natChars n) = n := by
  unfold natChars
  by_cases h0 : n = 0
  · subst h0; decide
  · rw [if_neg h0, natCharsAux_val (n + 1) n 0 (by omega)]
    simp

lemma natChars_inj {a b : Nat} (h : natChars a = natChars b) : a = b := by
  have := congrArg (charsValFrom 0) h
  rwa [natChars_val, natChars_val] at this

/-! ### Sanitization and path injectivity -/

lemma replChar_id_of (old new : Char) :
    ∀ l : List Char, (∀ c ∈ l, c ≠ old) → replChar old new l = l := by
  intro l
  induction l with
  | nil => intro _; rfl
  | cons a as ih =>
    intro h
    have ha := h a (by simp)
    simp only [replChar, List.map_cons, if_neg ha]
    have := ih (fun c hc => h c (by simp [hc]))
    simpa [replChar] using this

lemma sanitizeChars_append (xs ys : List Char) :
    sanitizeChars (xs ++ ys) = sanitizeChars xs ++ sanitizeChars ys := by
  simp [sanitizeChars, replChar]

lemma sanitizeChars_natChars (n : Nat) :
    sanitizeChars (natChars n) = natChars n := by
  have hd := natChars_digits n
  unfold sanitizeChars
  rw [replChar_id_of '/' '_' (natChars n)
      (fun c hc h => absurd (hd c hc) (by rw [h]; decide)),
    replChar_id_of ' ' '_' (natChars n)
      (fun c hc h => absurd (hd c hc) (by rw [h]; decide))]

lemma stepPfx_data (now : Nat) (name : String) :
    (stepPfx now name).data =
      natChars now ++ '-' :: sanitizeChars name.data := by
  show sanitizeChars (natChars now ++ '-' :: name.data) = _
  have h : natChars now ++ '-' :: name.data =
      natChars now ++ (['-'] ++ name.data) := rfl
  rw [h, sanitizeChars_append, sanitizeChars_append,
    sanitizeChars_natChars]
  rfl

lemma natChars_no_dash (n : Nat) : ∀ c ∈ natChars n, c ≠ '-' := by
  intro c hc h
  exact absurd (natChars_digits n c hc) (by rw [h]; decide)

lemma splitDash : ∀ (a1 : List Char) (b1 : List Char) (a2 b2 : List Char),
    (∀ c ∈ a1, c ≠ '-') → (∀ c ∈ a2, c ≠ '-') →
    a1 ++ '-' :: b1 = a2 ++ '-' :: b2 → a1 = a2 ∧ b1 = b2 := by
  intro a1
  induction a1 with
  | nil =>
    intro b1 a2 b2 _ h2 heq
    cases a2 with
    | nil =>
      refine ⟨rfl, ?_⟩
      simpa using heq
    | cons x xs =>
      exfalso
      simp only [List.nil_append, List.cons_append, List.cons.injEq] at heq
      exact h2 x (by simp) heq.1.symm
  | cons a as ih =>
    intro b1 a2 b2 h1 h2 heq
    cases a2 with
    | nil =>
      exfalso
      simp only [List.nil_append, List.cons_append, List.cons.injEq] at heq
      exact h1 a (by simp) heq.1
    | cons x xs =>
      simp only [List.cons_append, List.cons.injEq] at heq
      obtain ⟨hax, hrest⟩ := heq
      obtain ⟨h3, h4⟩ := ih b1 xs b2 (fun c hc => h1 c (by simp [hc]))
        (fun c hc => h2 c (by simp [hc])) hrest
      exact ⟨by rw [hax, h3], h4⟩

lemma stepPfx_inj (t1 t2 : Nat) (n1 n2 : String)
    (h : stepPfx t1 n1 = stepPfx t2 n2) :
    t1 = t2 ∧ sanitizeChars n1.data = sanitizeChars n2.data := by
  have hdata := congrArg String.data h
  rw [stepPfx_data, stepPfx_data] at hdata
  obtain ⟨ha, hb⟩ := splitDash (natChars t1) (sanitizeChars n1.data)
    (natChars t2) (sanitizeChars n2.data)
    (natChars_no_dash t1) (natChars_no_dash t2) hdata
  exact ⟨natChars_inj ha, hb⟩

lemma logPath_inj (ctx : RunCtx) (suffix : String) (t1 t2 : Nat)
    (n1 n2 : String)
    (h : ctx.logs_dir ++ "/" ++ stepPfx t1 n1 ++ suffix =
         ctx.logs_dir ++ "/" ++ stepPfx t2 n2 ++ suffix) :
    t1 = t2 ∧ sanitizeChars n1.data = sanitizeChars n2.data := by
  have hdata := congrArg String.data h
  simp only [String.data_append, List.append_assoc] at hdata
  have h1 := List.append_cancel_left hdata
  have h2 := List.append_cancel_left h1
  have h3 := List.append_cancel_right h2
  exact stepPfx_inj t1 t2 n1 n2 (String.ext h3)

/-! ## Claim C7 — log-path uniqueness within a run -/

/-- C7 counterexample: the step names "a/b" and "a b" are distinct, yet
in the same second they sanitize to the same prefix, so the two
invocations write to exactly the same three log files — refuting "no
two step invocations in the same run directory ever write to the same
files".  (The same collision occurs for two equally named steps in the
same second.) -/
theorem c7_counterexample :
    metaPathOf ctx0 100 "a/b" = metaPathOf ctx0 100 "a b" ∧
    outPathOf ctx0 100 "a/b" = outPathOf ctx0 100 "a b" ∧
    errPathOf ctx0 100 "a/b" = errPathOf ctx0 100 "a b" ∧
    "a/b" ≠ "a b" :=
  ⟨rfl, rfl, rfl, by decide⟩

/-- C7 (amended): two step invocations write to distinct `.out.txt`,
`.err.txt` and `.meta.json` files whenever their start seconds differ or
their sanitized names (after replacing "/" and " " with "_") differ;
uniqueness fails exactly when two invocations share both the same second
and the same sanitized name. -/
theorem c7_log_path_uniqueness (ctx : RunCtx) (t1 t2 : Nat) (n1 n2 : String)
    (h : t1 ≠ t2 ∨ sanitizeChars n1.data ≠ sanitizeChars n2.data) :
    metaPathOf ctx t1 n1 ≠ metaPathOf ctx t2 n2 ∧
    outPathOf ctx t1 n1 ≠ outPathOf ctx t2 n2 ∧
    errPathOf ctx t1 n1 ≠ errPathOf ctx t2 n2 := by
  refine ⟨?_, ?_, ?_⟩ <;> intro heq
  · rcases logPath_inj ctx ".meta.json" t1 t2 n1 n2 heq with ⟨ht, hs⟩
    rcases h with h | h
    · exact h ht
    · exact h hs
  · rcases logPath_inj ctx ".out.txt" t1 t2 n1 n2 heq with ⟨ht, hs⟩
    rcases h with h | h
    · exact h ht
    · exact h hs
  · rcases logPath_inj ctx ".err.txt" t1 t2 n1 n2 heq with ⟨ht, hs⟩
    rcases h with h | h
    · exact h ht
    · exact h hs

/-- Witness for C7: two equally named steps one second apart get
distinct log files. -/
theorem c7_log_path_uniqueness_witness :
    metaPathOf ctx0 1 "status_pre" ≠ metaPathOf ctx0 2 "status_pre" ∧
    outPathOf ctx0 1 "status_pre" ≠ outPathOf ctx0 2 "status_pre" ∧
    errPathOf ctx0 1 "status_pre" ≠ errPathOf ctx0 2 "status_pre" :=
  c7_log_path_uniqueness ctx0 1 2 "status_pre" "status_pre"
    (Or.inl (by decide))

/-! ## Claim C5 — fallback candidate selector -/

/-- C5: the fallback selector is order-preserving and short-circuiting:
it attempts candidates in list order, accepts the first whose step exits
zero or whose combined stdout+stderr case-insensitively contains the
already-present marker (attempting no further candidates), raises a
fatal StepFailure aggregating the last candidate's truncated error when
every candidate fails, and the local-presence pre-check of
`ensure_language_model` returns the first locally materialized candidate
without invoking any acquisition step. -/
theorem c5_fallback_selector :
    (∀ (dl : String → String → DlResult) (pre : List (String × String))
        (rb : String × String) (post : List (String × String)),
      (∀ x ∈ pre, dlAccepts (dl x.1 x.2) = false) →
      dlAccepts (dl rb.1 rb.2) = true →
      pick_first_working_model_download dl (pre ++ rb :: post) =
        (.ok rb.1, pre.map Prod.fst ++ [rb.1])) ∧
    (∀ (dl : String → String → DlResult) (cands : List (String × String))
        (lastc : String × String),
      (∀ x ∈ cands, dlAccepts (dl x.1 x.2) = false) →
      cands.getLast? = some lastc →
      pick_first_working_model_download dl cands =
        (.error (.stepFailed ("All model download candidates failed.\n" ++
           dlErrMsg lastc.1 lastc.2 (dl lastc.1 lastc.2))),
         cands.map Prod.fst)) ∧
    (∀ (localExists : String → Bool) (dl : String → String → DlResult)
        (pre : List (String × String)) (rb : String × String)
        (post : List (String × String)),
      lmCandidates = pre ++ rb :: post →
      (∀ x ∈ pre, localExists (modelDirName x.1) = false) →
      localExists (modelDirName rb.1) = true →
      ensure_language_model localExists dl = (.ok rb.1, [])) := by
  refine ⟨?_, ?_, ?_⟩
  · intro dl pre rb post hpre hx
    exact pickAux_accepts dl pre rb post "None" hpre hx
  · intro dl cands lastc h hl
    exact pickAux_all_fail dl cands lastc "None" h hl
  · intro localExists dl pre rb post hdec hpre hx
    unfold ensure_language_model
    rw [hdec, find?_of_decomp _ pre rb post hpre hx]

/-- Witness for C5: the second candidate already exists locally, so it
is selected with no download attempted; and a two-candidate download run
accepts the second via the case-insensitive already-present marker after
the first fails. -/
theorem c5_fallback_selector_witness :
    ensure_language_model
        (fun d => d == "mlx-community_SmolLM-360M-Instruct-4bit")
        (fun _ _ => ⟨1, "", ""⟩) =
      (.ok "mlx-community/SmolLM-360M-Instruct-4bit", []) ∧
    pick_first_working_model_download
        (fun r _ => if r == "a/x" then ⟨1, "", "no luck"⟩
                    else ⟨1, "Model ALREADY Downloaded.", ""⟩)
        [("a/x", "mlx"), ("b/y", "mlx")] =
      (.ok "b/y", ["a/x", "b/y"]) :=
  ⟨c5_fallback_selector.2.2
      (fun d => d == "mlx-community_SmolLM-360M-Instruct-4bit")
      (fun _ _ => ⟨1, "", ""⟩)
      [("mlx-community/SmolLM-135M-4bit", "mlx")]
      ("mlx-community/SmolLM-360M-Instruct-4bit", "mlx")
      [("mlx-community/SmolLM-1.7B-Instruct-4bit", "mlx")]
      rfl (by decide) (by decide),
   c5_fallback_selector.1
      (fun r _ => if r == "a/x" then ⟨1, "", "no luck"⟩
                  else ⟨1, "Model ALREADY Downloaded.", ""⟩)
      [("a/x", "mlx")] ("b/y", "mlx") [] (by decide) (by decide)⟩

/-! ## Claim C6 — UUID extraction -/

/-- C6: UUID extraction scans the whitespace-delimited tokens from the
end and returns the last token that `uuid.UUID` accepts, exactly as it
appears; on the example message it returns exactly the UUID token, and
it returns nothing when no token parses. -/
theorem c6_uuid_extraction :
    (∀ text : String,
      extract_uuid text =
        ((pySplit (pyStrip text.data)).filter pyUUIDOk).getLast?) ∧
    extract_uuid "Created skill 123e4567-e89b-12d3-a456-426614174000" =
      some "123e4567-e89b-12d3-a456-426614174000".data ∧
    (∀ text : String,
      (∀ t ∈ pySplit (pyStrip text.data), pyUUIDOk t = false) →
      extract_uuid text = Option.none) := by
  refine ⟨?_, rfl, ?_⟩
  · intro text
    exact find?_reverse_eq_getLast?_filter pyUUIDOk (pySplit (pyStrip text.data))
  · intro text h
    unfold extract_uuid
    rw [find?_reverse_eq_getLast?_filter,
      List.filter_eq_nil_iff.mpr (by simpa using h)]
    rfl

/-- Witness for C6: a message with no UUID-shaped token yields nothing. -/
theorem c6_uuid_extraction_witness :
    extract_uuid "Created skill with no identifier" = Option.none :=
  c6_uuid_extraction.2.2 "Created skill with no identifier" (by decide)

/-! ## Claim C8 — store reset is best-effort and idempotent -/

/-- C8: `reset_cli_store` never raises — for every store identifier,
filesystem and deletion-failure oracle it returns normally — and on a
store with no existing files it leaves the filesystem unchanged, so
calling it twice in a row does not raise and leaves the same (empty)
state as calling it once. -/
theorem c8_reset_best_effort_idempotent :
    (∀ (deleteFails : String → Bool) (store_name : String)
        (fs : String → Bool),
      ∃ fs2, reset_cli_store deleteFails store_name fs = .ok fs2) ∧
    (∀ (deleteFails : String → Bool) (store_name : String)
        (fs : String → Bool),
      (∀ p ∈ resetCandidates store_name, fs p = false) →
      reset_cli_store deleteFails store_name fs = .ok fs ∧
      ∀ fs2, reset_cli_store deleteFails store_name fs = .ok fs2 →
        reset_cli_store deleteFails store_name fs2 = .ok fs2) := by
  constructor
  · intro deleteFails store_name fs
    exact ⟨_, rfl⟩
  · intro deleteFails store_name fs h
    have h1 : reset_cli_store deleteFails store_name fs = .ok fs := by
      unfold reset_cli_store
      rw [foldl_resetStep_no_files deleteFails _ fs h]
    refine ⟨h1, ?_⟩
    intro fs2 h2
    have : fs = fs2 := by
      rw [h1] at h2
      exact Except.ok.inj h2
    subst this
    exact h1

/-- Witness for C8: resetting the run's store over an empty filesystem
returns it unchanged. -/
theorem c8_reset_best_effort_idempotent_witness :
    reset_cli_store (fun _ => false) "codex-usecases" (fun _ => false) =
      .ok (fun _ => false) :=
  (c8_reset_best_effort_idempotent.2 (fun _ => false) "codex-usecases"
    (fun _ => false) (fun p _ => rfl)).1

/-! ## Claim C10 — create_chat fails immediately, no fallback tiers -/

/-- C10: when the create-chat step exits zero with parseable JSON that
is not a mapping containing a truthy `id`, `create_chat` raises a
`StepFailed` immediately; its step trace is always exactly the one
create step (no message-extraction tier, no list fallback) — unlike
`create_skill`, whose trace gains a `skills_list` step when message
extraction fails. -/
theorem c10_create_chat_no_fallback :
    (∀ (chatTimeout : Int) (ctx : RunCtx) (now : Nat) (title : String)
        (beh : ProcBehavior) (out err : String) (j : PyVal),
      subprocessRun beh (effectiveTimeout chatTimeout Option.none
          ["chat", "create", "--title", title, "--format", "json"]) =
        .completed 0 out err →
      jsonLoads out = some j →
      ¬(isDict j = true ∧ pyTruthy (pyGet j "id") = true) →
      create_chat chatTimeout ctx now title beh =
        (.error (.stepFailed
          ("chat create did not return id. stdout JSON: " ++ pyReprStr j)),
         ["chat_create"])) ∧
    (∀ (chatTimeout : Int) (ctx : RunCtx) (now : Nat) (title : String)
        (beh : ProcBehavior),
      (create_chat chatTimeout ctx now title beh).2 = ["chat_create"]) ∧
    (∀ (chatTimeout : Int) (ctx : RunCtx) (now : Nat) (name : String)
        (tools : List String) (instructions : String)
        (behCreate behList : ProcBehavior) (outC errC : String) (jC : PyVal)
        (outL errL : String) (items : List PyVal),
      subprocessRun behCreate (effectiveTimeout chatTimeout Option.none
          (skillArgs name instructions tools)) = .completed 0 outC errC →
      jsonLoads outC = some jC →
      extractFromMessage jC = Option.none →
      subprocessRun behList (effectiveTimeout chatTimeout Option.none
          ["skills", "list", "--format", "json"]) = .completed 0 outL errL →
      jsonLoads outL = some (.list items) →
      pyTruthy (findIdByName items name) = true →
      create_skill chatTimeout ctx now name tools instructions
          behCreate behList =
        (.ok (findIdByName items name),
         ["skill_create_" ++ name, "skills_list"])) := by
  refine ⟨?_, ?_, ?_⟩
  · intro chatTimeout ctx now title beh out err j hc hj hnot
    rw [create_chat_eq,
      run_step_json_zero_ok chatTimeout ctx now "chat_create"
        ["chat", "create", "--title", title, "--format", "json"] beh out err j
        hc hj]
    by_cases hd : isDict j = true
    · have hid : pyTruthy (pyGet j "id") = false := by
        rcases Bool.eq_false_or_eq_true (pyTruthy (pyGet j "id")) with h | h
        · exact absurd ⟨hd, h⟩ hnot
        · exact h
      simp [hd, hid]
    · simp [Bool.eq_false_iff.mpr hd,
        show pyTruthy PyVal.none = false from rfl]
  · intro chatTimeout ctx now title beh
    rfl
  · intro chatTimeout ctx now name tools instructions behCreate behList
      outC errC jC outL errL items hcC hjC hext hcL hjL hfound
    rw [create_skill_eq,
      run_step_json_zero_ok chatTimeout ctx now ("skill_create_" ++ name)
        (skillArgs name instructions tools) behCreate outC errC jC hcC hjC,
      run_step_json_zero_ok chatTimeout ctx now "skills_list"
        ["skills", "list", "--format", "json"] behList outL errL (.list items)
        hcL hjL]
    simp [hext, hfound]
    rfl

/-- Witness for C10: a zero-exit create-chat step answering
`{"ok": true}` (no `id`) makes the helper raise at once, with the one
create step as its whole trace. -/
theorem c10_create_chat_no_fallback_witness :
    create_chat 1800 ctx0 100 "uc1-bootstrap"
        ⟨1, 0, " \x7b\"ok\": true\x7d ", ""⟩ =
      (.error (.stepFailed
        ("chat create did not return id. stdout JSON: " ++
          pyReprStr (.dict [("ok", .bool true)]))),
       ["chat_create"]) :=
  c10_create_chat_no_fallback.1 1800 ctx0 100 "uc1-bootstrap"
    ⟨1, 0, " \x7b\"ok\": true\x7d ", ""⟩ " \x7b\"ok\": true\x7d " ""
    (.dict [("ok", .bool true)]) rfl rfl (by decide)

end RunUsecases
